import Mathlib

/-!
Verification of the multi-assessor health coordination and synthesis engine
(`src/core/health_coordinator.py`, `src/core/health_agents.py`).

The Python dictionaries exchanged between the coordinator, the assessors and
the synthesis step are embedded as Lean structures; a key that may be absent
becomes an `Option` field, `dict.get(key, default)` becomes `Option.getD`.
Floating-point accessibility scores are embedded as rationals (only ordering
comparisons against the constants 0.5 and 0.7 occur in the code).
-/

/-- A `risk_assessment` / `injury_risk` sub-dictionary.  The code reads it
with `.get('risk_level', 'low')`, so the key may be absent. -/
structure RiskAssessment where
  risk_level : Option String := none
  deriving Repr, DecidableEq

/-- Result dictionary of the mental-health assessor as consumed by
`_synthesize_results` and the coordinator: optional `risk_assessment`
sub-dictionary, `recommendations` list (absent key behaves as `[]` under
`.get('recommendations', [])`), optional `error` marker. -/
structure MentalResult where
  risk_assessment : Option RiskAssessment := none
  recommendations : List String := []
  error : Option String := none
  deriving Repr, DecidableEq

/-- Result dictionary of the physical-health assessor: optional `injury_risk`
sub-dictionary, `recommendations`, optional `error` marker. -/
structure PhysicalResult where
  injury_risk : Option RiskAssessment := none
  recommendations : List String := []
  error : Option String := none
  deriving Repr, DecidableEq

/-- A `healthcare_accessibility` sub-dictionary; the code reads
`.get('overall_score', 0.5)`, so the score key may be absent. -/
structure HealthcareAccessibility where
  overall_score : Option ℚ := none
  deriving Repr, DecidableEq

/-- Result dictionary of the economics assessor: `economic_assessment`
records whether that key is present (its value is fetched but unused by the
synthesis code), plus `barriers`, `recommendations`, optional
`healthcare_accessibility`, optional `error` marker. -/
structure EconomicsResult where
  economic_assessment : Bool := false
  barriers : List String := []
  recommendations : List String := []
  healthcare_accessibility : Option HealthcareAccessibility := none
  error : Option String := none
  deriving Repr, DecidableEq

/-- A memory hit as built by `retrieve_relevant_memories`. -/
structure MemoryHit where
  timestamp : String := ""
  user_message : String := ""
  agent_response : String := ""
  risk_level : Option String := none
  deriving Repr, DecidableEq

/-- The synthesis dictionary built by `_synthesize_results`. -/
structure Synthesis where
  overall_health_status : String
  priority : List String
  recommendations : List String
  warnings : List String
  insights : List String
  deriving Repr, DecidableEq

/-- The initial synthesis value (`health_coordinator.py` lines 153-159). -/
def synthesisInit : Synthesis :=
  { overall_health_status := "good"
    priority := []
    recommendations := []
    warnings := []
    insights := [] }

/-- Mental-health analysis step of `_synthesize_results`
(`health_coordinator.py` lines 161-171). -/
def stepMental (m : MentalResult) (s : Synthesis) : Synthesis :=
  match m.risk_assessment with
  | none => s
  | some ra =>
    let mental_risk := ra.risk_level.getD "low"
    if mental_risk = "high" then
      { s with overall_health_status := "critical"
               warnings := s.warnings ++ ["⚠️ 检测到心理健康高风险，建议立即寻求专业帮助"]
               priority := s.priority ++ ["心理健康"] }
    else if mental_risk = "medium" then
      let s1 := if s.overall_health_status = "good" then
          { s with overall_health_status := "attention_needed" } else s
      { s1 with recommendations := s1.recommendations ++ m.recommendations }
    else s

/-- Physical-health analysis step of `_synthesize_results`
(`health_coordinator.py` lines 173-183). -/
def stepPhysical (p : PhysicalResult) (s : Synthesis) : Synthesis :=
  match p.injury_risk with
  | none => s
  | some ir =>
    let physical_risk := ir.risk_level.getD "low"
    if physical_risk = "high" then
      let s1 := if s.overall_health_status = "good" then
          { s with overall_health_status := "attention_needed" } else s
      { s1 with warnings := s1.warnings ++ ["⚠️ 运动损伤风险较高"]
                priority := s1.priority ++ ["身体健康"]
                recommendations := s1.recommendations ++ p.recommendations }
    else if physical_risk = "medium" then
      { s with recommendations := s.recommendations ++ p.recommendations }
    else s

/-- Marking an economics recommendation (`health_coordinator.py` line 199):
prefix `💰 ` unless the string already starts with `💰`. -/
def markEconRec (r : String) : String :=
  if r.startsWith "💰" then r else "💰 " ++ r

/-- Economics analysis step of `_synthesize_results`
(`health_coordinator.py` lines 185-209).  The argument is `none` when the
economics dictionary is empty (falsy); inside, `economic_assessment`
records presence of that key. -/
def stepEconomic (e : Option EconomicsResult) (s : Synthesis) : Synthesis :=
  match e with
  | none => s
  | some er =>
    if er.economic_assessment then
      let s1 := if er.barriers ≠ [] then
          { s with warnings := s.warnings ++ ["💰 检测到经济障碍可能影响健康"]
                   insights := s.insights ++ er.barriers.take 2 }
        else s
      let s2 := if er.recommendations ≠ [] then
          { s1 with recommendations :=
              s1.recommendations ++ er.recommendations.map markEconRec }
        else s1
      match er.healthcare_accessibility with
      | none => s2
      | some acc =>
        if acc.overall_score.getD (mkRat 1 2) < mkRat 1 2 then
          { s2 with warnings := s2.warnings ++ ["⚠️ 医疗可及性较低，可能影响获得医疗服务"] }
        else if acc.overall_score.getD (mkRat 1 2) > mkRat 7 10 then
          { s2 with insights := s2.insights ++ ["✅ 医疗可及性良好，可以充分利用医疗资源"] }
        else s2
    else s

/-- Memory-insight step of `_synthesize_results`
(`health_coordinator.py` lines 211-213). -/
def stepMemory (memories : List MemoryHit) (s : Synthesis) : Synthesis :=
  if memories ≠ [] then
    { s with insights := s.insights ++
        ["基于历史记录，发现" ++ toString memories.length ++ "条相关经验"] }
  else s

/-- Closing-recommendation step of `_synthesize_results`
(`health_coordinator.py` lines 215-221). -/
def stepClosing (s : Synthesis) : Synthesis :=
  if s.overall_health_status = "good" then
    { s with recommendations := s.recommendations ++ ["💚 整体健康状况良好，继续保持"] }
  else if s.overall_health_status = "attention_needed" then
    { s with recommendations := s.recommendations ++ ["💛 建议关注身心健康，适当调整生活方式"] }
  else
    { s with recommendations := s.recommendations ++ ["🔴 建议尽快咨询专业医疗人员"] }

/-- `HealthCoordinator._synthesize_results`
(`health_coordinator.py` lines 134-223), as the composition of its
sequential mutation steps. -/
def synthesize_results (m : MentalResult) (p : PhysicalResult)
    (e : Option EconomicsResult) (memories : List MemoryHit) : Synthesis :=
  stepClosing (stepMemory memories (stepEconomic e (stepPhysical p (stepMental m synthesisInit))))

/-! ### Closed forms of the merge, used to state the claims -/

/-- Effective mental risk level: `some` of the defaulted `risk_level` when the
`risk_assessment` key is present, `none` otherwise. -/
def mentalRiskLevel (m : MentalResult) : Option String :=
  m.risk_assessment.map (fun ra => ra.risk_level.getD "low")

/-- Effective physical risk level, analogously via the `injury_risk` key. -/
def physRiskLevel (p : PhysicalResult) : Option String :=
  p.injury_risk.map (fun ir => ir.risk_level.getD "low")

/-- The mental assessor reports high risk. -/
def mentalHighB (m : MentalResult) : Bool := mentalRiskLevel m == some "high"

/-- The mental assessor reports medium risk. -/
def mentalMediumB (m : MentalResult) : Bool := mentalRiskLevel m == some "medium"

/-- The physical assessor reports high risk. -/
def physHighB (p : PhysicalResult) : Bool := physRiskLevel p == some "high"

/-- The physical assessor reports medium risk. -/
def physMediumB (p : PhysicalResult) : Bool := physRiskLevel p == some "medium"

/-- Closed form of the final `overall_health_status` of a merge. -/
def finalStatus (m : MentalResult) (p : PhysicalResult) : String :=
  if mentalHighB m then "critical"
  else if mentalMediumB m || physHighB p then "attention_needed"
  else "good"

/-- Closed form of the `priority` list of a merge. -/
def priorityOf (m : MentalResult) (p : PhysicalResult) : List String :=
  (if mentalHighB m then ["心理健康"] else []) ++
  (if physHighB p then ["身体健康"] else [])

/-- Whether the economics block runs (non-empty dictionary containing the
`economic_assessment` key). -/
def econActive (e : Option EconomicsResult) : Bool :=
  match e with
  | none => false
  | some er => er.economic_assessment

/-- Barriers list of the economics input (empty when the dictionary is empty). -/
def econBarriers (e : Option EconomicsResult) : List String :=
  match e with
  | none => []
  | some er => er.barriers

/-- The defaulted accessibility score triggers the low-accessibility warning. -/
def accLowB (er : EconomicsResult) : Bool :=
  match er.healthcare_accessibility with
  | none => false
  | some acc => acc.overall_score.getD (mkRat 1 2) < mkRat 1 2

/-- The defaulted accessibility score triggers the good-accessibility insight. -/
def accHighB (er : EconomicsResult) : Bool :=
  match er.healthcare_accessibility with
  | none => false
  | some acc => ¬ (acc.overall_score.getD (mkRat 1 2) < mkRat 1 2) ∧
      acc.overall_score.getD (mkRat 1 2) > mkRat 7 10

/-- Warnings contributed by the economics step. -/
def econWarnings (e : Option EconomicsResult) : List String :=
  match e with
  | none => []
  | some er =>
    if er.economic_assessment then
      (if er.barriers ≠ [] then ["💰 检测到经济障碍可能影响健康"] else []) ++
      (if accLowB er then ["⚠️ 医疗可及性较低，可能影响获得医疗服务"] else [])
    else []

/-- Insights contributed by the economics step. -/
def econInsights (e : Option EconomicsResult) : List String :=
  match e with
  | none => []
  | some er =>
    if er.economic_assessment then
      er.barriers.take 2 ++
      (if accHighB er then ["✅ 医疗可及性良好，可以充分利用医疗资源"] else [])
    else []

/-- Recommendations contributed by the economics step. -/
def econRecs (e : Option EconomicsResult) : List String :=
  match e with
  | none => []
  | some er =>
    if er.economic_assessment then er.recommendations.map markEconRec else []

/-- Recommendations contributed by the mental assessor to the verdict. -/
def mentalRecsContrib (m : MentalResult) : List String :=
  if mentalMediumB m then m.recommendations else []

/-- Recommendations contributed by the physical assessor to the verdict. -/
def physRecsContrib (p : PhysicalResult) : List String :=
  if physHighB p || physMediumB p then p.recommendations else []

/-- Insight contributed by the memory hits. -/
def memoryInsights (memories : List MemoryHit) : List String :=
  if memories ≠ [] then
    ["基于历史记录，发现" ++ toString memories.length ++ "条相关经验"]
  else []

/-- The closing recommendation keyed by the final status. -/
def closingRec (st : String) : String :=
  if st = "good" then "💚 整体健康状况良好，继续保持"
  else if st = "attention_needed" then "💛 建议关注身心健康，适当调整生活方式"
  else "🔴 建议尽快咨询专业医疗人员"

/-! ### Per-step characterization lemmas -/

lemma stepMental_high (m : MentalResult) (s : Synthesis)
    (h : mentalRiskLevel m = some "high") :
    stepMental m s =
      { s with overall_health_status := "critical"
               warnings := s.warnings ++ ["⚠️ 检测到心理健康高风险，建议立即寻求专业帮助"]
               priority := s.priority ++ ["心理健康"] } := by
  obtain ⟨mra, mrecs, merr⟩ := m
  cases mra with
  | none => simp [mentalRiskLevel] at h
  | some ra =>
    simp [mentalRiskLevel] at h
    simp [stepMental, h]

lemma stepMental_medium (m : MentalResult) (s : Synthesis)
    (h : mentalRiskLevel m = some "medium") :
    stepMental m s =
      { s with overall_health_status :=
                 if s.overall_health_status = "good" then "attention_needed"
                 else s.overall_health_status
               recommendations := s.recommendations ++ m.recommendations } := by
  obtain ⟨mra, mrecs, merr⟩ := m
  cases mra with
  | none => simp [mentalRiskLevel] at h
  | some ra =>
    simp [mentalRiskLevel] at h
    by_cases hg : s.overall_health_status = "good" <;> simp [stepMental, h, hg]

lemma stepMental_other (m : MentalResult) (s : Synthesis)
    (h1 : mentalRiskLevel m ≠ some "high") (h2 : mentalRiskLevel m ≠ some "medium") :
    stepMental m s = s := by
  obtain ⟨mra, mrecs, merr⟩ := m
  cases mra with
  | none => simp [stepMental]
  | some ra =>
    simp [mentalRiskLevel] at h1 h2
    simp [stepMental, h1, h2]

lemma stepPhysical_high (p : PhysicalResult) (s : Synthesis)
    (h : physRiskLevel p = some "high") :
    stepPhysical p s =
      { s with overall_health_status :=
                 if s.overall_health_status = "good" then "attention_needed"
                 else s.overall_health_status
               warnings := s.warnings ++ ["⚠️ 运动损伤风险较高"]
               priority := s.priority ++ ["身体健康"]
               recommendations := s.recommendations ++ p.recommendations } := by
  obtain ⟨pir, precs, perr⟩ := p
  cases pir with
  | none => simp [physRiskLevel] at h
  | some ir =>
    simp [physRiskLevel] at h
    by_cases hg : s.overall_health_status = "good" <;> simp [stepPhysical, h, hg]

lemma stepPhysical_medium (p : PhysicalResult) (s : Synthesis)
    (h : physRiskLevel p = some "medium") :
    stepPhysical p s =
      { s with recommendations := s.recommendations ++ p.recommendations } := by
  obtain ⟨pir, precs, perr⟩ := p
  cases pir with
  | none => simp [physRiskLevel] at h
  | some ir =>
    simp [physRiskLevel] at h
    simp [stepPhysical, h]

lemma stepPhysical_other (p : PhysicalResult) (s : Synthesis)
    (h1 : physRiskLevel p ≠ some "high") (h2 : physRiskLevel p ≠ some "medium") :
    stepPhysical p s = s := by
  obtain ⟨pir, precs, perr⟩ := p
  cases pir with
  | none => simp [stepPhysical]
  | some ir =>
    simp [physRiskLevel] at h1 h2
    simp [stepPhysical, h1, h2]

/-- The economics step only appends to `warnings`, `insights` and
`recommendations`; it never touches `overall_health_status` or `priority`. -/
lemma stepEconomic_char (e : Option EconomicsResult) (s : Synthesis) :
    stepEconomic e s =
      { s with warnings := s.warnings ++ econWarnings e
               insights := s.insights ++ econInsights e
               recommendations := s.recommendations ++ econRecs e } := by
  cases e with
  | none => simp [stepEconomic, econWarnings, econInsights, econRecs]
  | some er =>
    obtain ⟨ea, bars, recs, acc, err⟩ := er
    cases ea with
    | false => simp [stepEconomic, econWarnings, econInsights, econRecs]
    | true =>
      simp only [stepEconomic, econWarnings, econInsights, econRecs, accLowB, accHighB]
      cases acc with
      | none => split_ifs <;> simp_all
      | some a =>
        simp only []
        split_ifs <;> simp_all <;> linarith

lemma stepMemory_char (memories : List MemoryHit) (s : Synthesis) :
    stepMemory memories s = { s with insights := s.insights ++ memoryInsights memories } := by
  simp only [stepMemory, memoryInsights]
  split_ifs <;> simp

lemma stepClosing_char (s : Synthesis) :
    stepClosing s =
      { s with recommendations :=
          s.recommendations ++ [closingRec s.overall_health_status] } := by
  simp only [stepClosing, closingRec]
  split_ifs <;> simp

/-- Closed form of the mental-then-physical prefix of the merge. -/
lemma stepMP_char (m : MentalResult) (p : PhysicalResult) :
    stepPhysical p (stepMental m synthesisInit) =
      { overall_health_status := finalStatus m p
        priority := priorityOf m p
        recommendations := mentalRecsContrib m ++ physRecsContrib p
        warnings := (if mentalHighB m then ["⚠️ 检测到心理健康高风险，建议立即寻求专业帮助"] else []) ++
          (if physHighB p then ["⚠️ 运动损伤风险较高"] else [])
        insights := [] } := by
  have hmh : mentalHighB m = true ↔ mentalRiskLevel m = some "high" := by
    simp [mentalHighB]
  have hmm : mentalMediumB m = true ↔ mentalRiskLevel m = some "medium" := by
    simp [mentalMediumB]
  have hph : physHighB p = true ↔ physRiskLevel p = some "high" := by
    simp [physHighB]
  have hpm : physMediumB p = true ↔ physRiskLevel p = some "medium" := by
    simp [physMediumB]
  by_cases h1 : mentalHighB m = true
  · rw [stepMental_high m _ (hmh.mp h1)]
    by_cases h2 : physHighB p = true
    · rw [stepPhysical_high p _ (hph.mp h2)]
      simp [finalStatus, priorityOf, mentalRecsContrib, physRecsContrib, synthesisInit,
        h1, h2, hmm, hmh.mp h1]
    · by_cases h3 : physMediumB p = true
      · rw [stepPhysical_medium p _ (hpm.mp h3)]
        simp [finalStatus, priorityOf, mentalRecsContrib, physRecsContrib, synthesisInit,
          h1, h2, h3, hmm, hmh.mp h1]
      · rw [stepPhysical_other p _ (fun hc => h2 (hph.mpr hc)) (fun hc => h3 (hpm.mpr hc))]
        simp [finalStatus, priorityOf, mentalRecsContrib, physRecsContrib, synthesisInit,
          h1, h2, h3, hmm, hmh.mp h1]
  · by_cases h4 : mentalMediumB m = true
    · rw [stepMental_medium m _ (hmm.mp h4)]
      by_cases h2 : physHighB p = true
      · rw [stepPhysical_high p _ (hph.mp h2)]
        simp [finalStatus, priorityOf, mentalRecsContrib, physRecsContrib, synthesisInit,
          h1, h2, h4]
      · by_cases h3 : physMediumB p = true
        · rw [stepPhysical_medium p _ (hpm.mp h3)]
          simp [finalStatus, priorityOf, mentalRecsContrib, physRecsContrib, synthesisInit,
            h1, h2, h3, h4]
        · rw [stepPhysical_other p _ (fun hc => h2 (hph.mpr hc)) (fun hc => h3 (hpm.mpr hc))]
          simp [finalStatus, priorityOf, mentalRecsContrib, physRecsContrib, synthesisInit,
            h1, h2, h3, h4]
    · rw [stepMental_other m _ (fun hc => h1 (hmh.mpr hc)) (fun hc => h4 (hmm.mpr hc))]
      by_cases h2 : physHighB p = true
      · rw [stepPhysical_high p _ (hph.mp h2)]
        simp [finalStatus, priorityOf, mentalRecsContrib, physRecsContrib, synthesisInit,
          h1, h2, h4]
      · by_cases h3 : physMediumB p = true
        · rw [stepPhysical_medium p _ (hpm.mp h3)]
          simp [finalStatus, priorityOf, mentalRecsContrib, physRecsContrib, synthesisInit,
            h1, h2, h3, h4]
        · rw [stepPhysical_other p _ (fun hc => h2 (hph.mpr hc)) (fun hc => h3 (hpm.mpr hc))]
          simp [finalStatus, priorityOf, mentalRecsContrib, physRecsContrib, synthesisInit,
            h1, h2, h3, h4]

/-! ### Coordinator fan-out handling (`process_message`, lines 88-132)

`asyncio.gather(..., return_exceptions=True)` hands the coordinator, for each
assessor, either its result dictionary or the raised exception; this outcome
is embedded as `Except String result`.  An exception becomes the per-agent
entry `\x7b'error': str(e)\x7d` in the response, while the synthesis step
receives the empty dictionary `\x7b\x7d` for that assessor. -/

/-- The `agents.mental_health` entry of the response (lines 96-100). -/
def mentalEntry : Except String MentalResult → MentalResult
  | .ok r => r
  | .error e => { error := some e }

/-- The `agents.physical_health` entry of the response (lines 102-106). -/
def physicalEntry : Except String PhysicalResult → PhysicalResult
  | .ok r => r
  | .error e => { error := some e }

/-- The `agents.economics_health` entry of the response (lines 108-112). -/
def economicsEntry : Except String EconomicsResult → EconomicsResult
  | .ok r => r
  | .error e => { error := some e }

/-- The mental argument passed to `_synthesize_results` (line 116):
the result, or the empty dictionary on exception. -/
def mentalSynthInput : Except String MentalResult → MentalResult
  | .ok r => r
  | .error _ => {}

/-- The physical argument passed to `_synthesize_results` (line 117). -/
def physicalSynthInput : Except String PhysicalResult → PhysicalResult
  | .ok r => r
  | .error _ => {}

/-- The economics argument passed to `_synthesize_results` (line 118);
the empty dictionary substituted on exception is falsy, i.e. `none`. -/
def econSynthInput : Except String EconomicsResult → Option EconomicsResult
  | .ok r => some r
  | .error _ => none

/-! ### Memory agent (`health_agents.py`, `HealthMemoryAgent`) -/

/-- A conversation turn stored in a session. -/
structure ConversationTurn where
  timestamp : String := ""
  user_message : String := ""
  agent_response : String := ""
  risk_level : Option String := none
  deriving Repr, DecidableEq

/-- A stored session of the psychology memory system. -/
structure Session where
  session_id : String := ""
  user_id : String := ""
  turns : List ConversationTurn := []
  deriving Repr, DecidableEq

/-- Python `l[-n:]`: the last `n` elements of a list. -/
def lastN (n : Nat) (l : List α) : List α := l.drop (l.length - n)

/-- Python `needle in hay` on strings (case already folded by the caller). -/
def strIn (needle hay : String) : Bool :=
  hay.containsSubstr needle.toSubstring

/-- `HealthMemoryAgent.retrieve_relevant_memories` (`health_agents.py`
lines 352-391).  The underlying `memory_system.get_sessions` call is the
only fallible interaction inside the `try` block; its outcome is passed in
as an `Except`.  Uninitialized memory system or a raised exception yield
`[]`; otherwise the last 3 turns of each session are filtered by substring
match of the query and the first `top_k` hits are returned. -/
def retrieve_relevant_memories (initialized : Bool)
    (sessionsResult : Except String (List Session))
    (query : String) (top_k : Nat) : List MemoryHit :=
  if ¬ initialized then []
  else
    match sessionsResult with
    | .error _ => []
    | .ok sessions =>
      let memories := sessions.flatMap (fun session =>
        (lastN 3 session.turns).filterMap (fun turn =>
          if strIn query.toLower turn.user_message.toLower
              || strIn query.toLower turn.agent_response.toLower then
            some { timestamp := turn.timestamp
                   user_message := turn.user_message
                   agent_response := turn.agent_response
                   risk_level := turn.risk_level }
          else none))
      memories.take top_k

/-- Outcomes of the memory-system interactions performed inside the `try`
block of `store_experience`: `get_or_create_profile`, `get_sessions`
(with `recent_n=1`), and `save_session`. -/
structure MemoryOps where
  profileResult : Except String Unit := .ok ()
  sessionsResult : Except String (List Session) := .ok []
  saveResult : Except String Unit := .ok ()

/-- `HealthMemoryAgent.store_experience` (`health_agents.py` lines 290-350).
Returns `none` when the memory system is uninitialized or any memory-system
call raises; otherwise returns the id of the most recent session (or of a
freshly created one when the user has no sessions). -/
def store_experience (initialized : Bool) (ops : MemoryOps)
    (user_id : String) (newSessionId : String) : Option String :=
  if ¬ initialized then none
  else
    match ops.profileResult with
    | .error _ => none
    | .ok _ =>
      match ops.sessionsResult with
      | .error _ => none
      | .ok sessions =>
        let session := match sessions with
          | s :: _ => s
          | [] => { session_id := newSessionId, user_id := user_id, turns := [] }
        match ops.saveResult with
        | .error _ => none
        | .ok _ => some session.session_id

/-- The parts of the `process_message` response relevant to the claims:
the three per-agent sections, the synthesis, and the optional memory id. -/
structure ProcessOutput where
  mental_entry : MentalResult
  physical_entry : PhysicalResult
  economics_entry : EconomicsResult
  synthesis : Synthesis
  memory_id : Option String
  deriving Repr, DecidableEq

/-- `HealthCoordinator.process_message` (`health_coordinator.py`
lines 31-132): memory retrieval with `top_k = 5`, fan-out outcomes folded
into per-agent entries and synthesis inputs, synthesis, then best-effort
storage. -/
def process_message_model (memInitialized : Bool)
    (retrSessions : Except String (List Session))
    (mo : Except String MentalResult)
    (po : Except String PhysicalResult)
    (eo : Except String EconomicsResult)
    (storeOps : MemoryOps) (user_id message newSessionId : String) : ProcessOutput :=
  let relevant_memories := retrieve_relevant_memories memInitialized retrSessions message 5
  { mental_entry := mentalEntry mo
    physical_entry := physicalEntry po
    economics_entry := economicsEntry eo
    synthesis := synthesize_results (mentalSynthInput mo) (physicalSynthInput po)
      (econSynthInput eo) relevant_memories
    memory_id := store_experience memInitialized storeOps user_id newSessionId }

/-- Severity rank of an `overall_health_status` value. -/
def statusRank (st : String) : Nat :=
  if st = "critical" then 2 else if st = "attention_needed" then 1 else 0

/-- Closed-form characterization of the whole merge: `synthesize_results`
produces exactly the concatenations of the per-step contributions, in
evaluation order, with no deduplication. -/
theorem synthesize_results_char (m : MentalResult) (p : PhysicalResult)
    (e : Option EconomicsResult) (memories : List MemoryHit) :
    synthesize_results m p e memories =
      { overall_health_status := finalStatus m p
        priority := priorityOf m p
        recommendations := mentalRecsContrib m ++ physRecsContrib p ++ econRecs e ++
          [closingRec (finalStatus m p)]
        warnings := (if mentalHighB m then ["⚠️ 检测到心理健康高风险，建议立即寻求专业帮助"] else []) ++
          (if physHighB p then ["⚠️ 运动损伤风险较高"] else []) ++ econWarnings e
        insights := econInsights e ++ memoryInsights memories } := by
  simp [synthesize_results, stepMP_char, stepEconomic_char, stepMemory_char, stepClosing_char]


/-! ### Status-evolution helper lemmas -/

lemma statusRank_le_two (st : String) : statusRank st ≤ 2 := by
  unfold statusRank; split_ifs <;> omega

lemma stepMental_mono (m : MentalResult) (s : Synthesis) :
    statusRank s.overall_health_status ≤ statusRank (stepMental m s).overall_health_status := by
  by_cases h1 : mentalRiskLevel m = some "high"
  · rw [stepMental_high m s h1]
    exact statusRank_le_two _
  · by_cases h2 : mentalRiskLevel m = some "medium"
    · rw [stepMental_medium m s h2]
      by_cases hg : s.overall_health_status = "good" <;> simp [hg, statusRank]
    · rw [stepMental_other m s h1 h2]

lemma stepPhysical_mono (p : PhysicalResult) (s : Synthesis) :
    statusRank s.overall_health_status ≤ statusRank (stepPhysical p s).overall_health_status := by
  by_cases h1 : physRiskLevel p = some "high"
  · rw [stepPhysical_high p s h1]
    by_cases hg : s.overall_health_status = "good" <;> simp [hg, statusRank]
  · by_cases h2 : physRiskLevel p = some "medium"
    · rw [stepPhysical_medium p s h2]
    · rw [stepPhysical_other p s h1 h2]

lemma stepPhysical_overall_of_ne_good (p : PhysicalResult) (s : Synthesis)
    (h : s.overall_health_status ≠ "good") :
    (stepPhysical p s).overall_health_status = s.overall_health_status := by
  by_cases h1 : physRiskLevel p = some "high"
  · rw [stepPhysical_high p s h1]; simp [h]
  · by_cases h2 : physRiskLevel p = some "medium"
    · rw [stepPhysical_medium p s h2]
    · rw [stepPhysical_other p s h1 h2]

lemma stepEconomic_overall (e : Option EconomicsResult) (s : Synthesis) :
    (stepEconomic e s).overall_health_status = s.overall_health_status := by
  rw [stepEconomic_char]

lemma stepMemory_overall (memories : List MemoryHit) (s : Synthesis) :
    (stepMemory memories s).overall_health_status = s.overall_health_status := by
  rw [stepMemory_char]

lemma stepClosing_overall (s : Synthesis) :
    (stepClosing s).overall_health_status = s.overall_health_status := by
  rw [stepClosing_char]

/-! ### Claim theorems -/

/-- C1: whenever the mental result reports `risk_level = "high"`, the merged
verdict has `overall_health_status = "critical"` regardless of the physical
and economic inputs, the crisis warning is appended and the mental assessor
is added to the priority list; every later step of the same merge (physical,
economic, memory, closing) leaves the status at `"critical"`. -/
theorem mental_high_precedence (m : MentalResult) (p : PhysicalResult)
    (e : Option EconomicsResult) (memories : List MemoryHit)
    (h : mentalRiskLevel m = some "high") :
    (synthesize_results m p e memories).overall_health_status = "critical" ∧
    "⚠️ 检测到心理健康高风险，建议立即寻求专业帮助" ∈ (synthesize_results m p e memories).warnings ∧
    "心理健康" ∈ (synthesize_results m p e memories).priority ∧
    (stepMental m synthesisInit).overall_health_status = "critical" ∧
    (stepPhysical p (stepMental m synthesisInit)).overall_health_status = "critical" ∧
    (stepEconomic e (stepPhysical p (stepMental m synthesisInit))).overall_health_status = "critical" ∧
    (stepMemory memories (stepEconomic e (stepPhysical p (stepMental m synthesisInit)))).overall_health_status = "critical" := by
  have hb : mentalHighB m = true := by simp [mentalHighB, h]
  have h1 : (stepMental m synthesisInit).overall_health_status = "critical" := by
    rw [stepMental_high m _ h]
  have h2 : (stepPhysical p (stepMental m synthesisInit)).overall_health_status = "critical" := by
    rw [stepPhysical_overall_of_ne_good p _ (by rw [h1]; decide), h1]
  have h3 : (stepEconomic e (stepPhysical p (stepMental m synthesisInit))).overall_health_status = "critical" := by
    rw [stepEconomic_overall, h2]
  have h4 : (stepMemory memories (stepEconomic e (stepPhysical p (stepMental m synthesisInit)))).overall_health_status = "critical" := by
    rw [stepMemory_overall, h3]
  refine ⟨?_, ?_, ?_, h1, h2, h3, h4⟩
  · rw [synthesize_results_char]
    simp [finalStatus, hb]
  · rw [synthesize_results_char]
    simp [hb]
  · rw [synthesize_results_char]
    simp [priorityOf, hb]

/-- Witness for C1: a concrete merge with mental high, physical high,
economic barriers and a memory hit still yields `"critical"`. -/
theorem mental_high_precedence_witness :
    (synthesize_results
        { risk_assessment := some { risk_level := some "high" }
          recommendations := ["建议立即寻求专业心理健康帮助"] }
        { injury_risk := some { risk_level := some "high" }
          recommendations := ["降低训练强度"] }
        (some { economic_assessment := true
                barriers := ["低收入可能限制医疗选择"]
                recommendations := ["优先使用公共医疗"]
                healthcare_accessibility := some { overall_score := some (mkRat 2 5) } })
        [{ user_message := "hello" }]).overall_health_status = "critical" ∧
    "⚠️ 检测到心理健康高风险，建议立即寻求专业帮助" ∈ (synthesize_results
        { risk_assessment := some { risk_level := some "high" }
          recommendations := ["建议立即寻求专业心理健康帮助"] }
        { injury_risk := some { risk_level := some "high" }
          recommendations := ["降低训练强度"] }
        (some { economic_assessment := true
                barriers := ["低收入可能限制医疗选择"]
                recommendations := ["优先使用公共医疗"]
                healthcare_accessibility := some { overall_score := some (mkRat 2 5) } })
        [{ user_message := "hello" }]).warnings ∧
    "心理健康" ∈ (synthesize_results
        { risk_assessment := some { risk_level := some "high" }
          recommendations := ["建议立即寻求专业心理健康帮助"] }
        { injury_risk := some { risk_level := some "high" }
          recommendations := ["降低训练强度"] }
        (some { economic_assessment := true
                barriers := ["低收入可能限制医疗选择"]
                recommendations := ["优先使用公共医疗"]
                healthcare_accessibility := some { overall_score := some (mkRat 2 5) } })
        [{ user_message := "hello" }]).priority := by
  have h := mental_high_precedence
    { risk_assessment := some { risk_level := some "high" }
      recommendations := ["建议立即寻求专业心理健康帮助"] }
    { injury_risk := some { risk_level := some "high" }
      recommendations := ["降低训练强度"] }
    (some { economic_assessment := true
            barriers := ["低收入可能限制医疗选择"]
            recommendations := ["优先使用公共医疗"]
            healthcare_accessibility := some { overall_score := some (mkRat 2 5) } })
    [{ user_message := "hello" }] (by decide)
  exact ⟨h.1, h.2.1, h.2.2.1⟩

/-- C2: `overall_health_status` is monotonically non-decreasing (under
good < attention_needed < critical) along the five evaluation steps of every
merge. -/
theorem status_monotone (m : MentalResult) (p : PhysicalResult)
    (e : Option EconomicsResult) (memories : List MemoryHit) :
    statusRank synthesisInit.overall_health_status ≤
      statusRank (stepMental m synthesisInit).overall_health_status ∧
    statusRank (stepMental m synthesisInit).overall_health_status ≤
      statusRank (stepPhysical p (stepMental m synthesisInit)).overall_health_status ∧
    statusRank (stepPhysical p (stepMental m synthesisInit)).overall_health_status ≤
      statusRank (stepEconomic e (stepPhysical p (stepMental m synthesisInit))).overall_health_status ∧
    statusRank (stepEconomic e (stepPhysical p (stepMental m synthesisInit))).overall_health_status ≤
      statusRank (stepMemory memories (stepEconomic e (stepPhysical p (stepMental m synthesisInit)))).overall_health_status ∧
    statusRank (stepMemory memories (stepEconomic e (stepPhysical p (stepMental m synthesisInit)))).overall_health_status ≤
      statusRank (synthesize_results m p e memories).overall_health_status := by
  refine ⟨stepMental_mono m _, stepPhysical_mono p _, ?_, ?_, ?_⟩
  · rw [stepEconomic_overall]
  · rw [stepMemory_overall]
  · rw [synthesize_results, stepClosing_overall]

/-- C3 counterexample: with mental absent and the physical result reporting
`risk_level = "medium"` (no result reports high), the merged status stays
`"good"` — the physical-medium branch only extends recommendations and never
raises the status to `"attention_needed"` as the claim demands. -/
theorem physical_medium_keeps_good :
    (synthesize_results {}
        { injury_risk := some { risk_level := some "medium" }
          recommendations := ["多休息"] } none []).overall_health_status = "good" ∧
    (synthesize_results {}
        { injury_risk := some { risk_level := some "medium" }
          recommendations := ["多休息"] } none []).overall_health_status ≠ "attention_needed" := by
  constructor <;> decide

/-- C3 amended: a medium *mental* risk (with no high physical risk) raises the
status from good to `"attention_needed"` and appends the mental
recommendations, with no priority entry and no warning from either assessor;
a medium *physical* risk only appends the physical recommendations to the
synthesis and leaves the status — and everything else — unchanged. -/
theorem medium_risk_handling (m : MentalResult) (p : PhysicalResult)
    (e : Option EconomicsResult) (memories : List MemoryHit) :
    (mentalRiskLevel m = some "medium" → physRiskLevel p ≠ some "high" →
      (synthesize_results m p e memories).overall_health_status = "attention_needed" ∧
      (synthesize_results m p e memories).recommendations =
        m.recommendations ++ physRecsContrib p ++ econRecs e ++
          ["💛 建议关注身心健康，适当调整生活方式"] ∧
      (synthesize_results m p e memories).priority = [] ∧
      (synthesize_results m p e memories).warnings = econWarnings e) ∧
    (physRiskLevel p = some "medium" → ∀ s : Synthesis,
      stepPhysical p s = { s with recommendations := s.recommendations ++ p.recommendations }) := by
  constructor
  · intro hm hp
    have hmm : mentalMediumB m = true := by simp [mentalMediumB, hm]
    have hmh : mentalHighB m = false := by simp [mentalHighB, hm]
    have hph : physHighB p = false := by
      simp only [physHighB, beq_eq_false_iff_ne, ne_eq]
      exact hp
    rw [synthesize_results_char]
    refine ⟨?_, ?_, ?_, ?_⟩
    · simp [finalStatus, hmm, hmh]
    · simp [finalStatus, mentalRecsContrib, hmm, hmh, closingRec]
    · simp [priorityOf, hmh, hph]
    · simp [hmh, hph]
  · intro hp s
    exact stepPhysical_medium p s hp

/-- Witness for the amended C3: concrete mental-medium input. -/
theorem medium_risk_handling_witness :
    (synthesize_results
        { risk_assessment := some { risk_level := some "medium" }
          recommendations := ["尝试放松技巧和压力管理"] }
        {} none []).overall_health_status = "attention_needed" ∧
    (synthesize_results
        { risk_assessment := some { risk_level := some "medium" }
          recommendations := ["尝试放松技巧和压力管理"] }
        {} none []).recommendations =
      ["尝试放松技巧和压力管理"] ++ physRecsContrib {} ++ econRecs none ++
        ["💛 建议关注身心健康，适当调整生活方式"] ∧
    (synthesize_results
        { risk_assessment := some { risk_level := some "medium" }
          recommendations := ["尝试放松技巧和压力管理"] }
        {} none []).priority = [] ∧
    (synthesize_results
        { risk_assessment := some { risk_level := some "medium" }
          recommendations := ["尝试放松技巧和压力管理"] }
        {} none []).warnings = econWarnings none :=
  (medium_risk_handling
    { risk_assessment := some { risk_level := some "medium" }
      recommendations := ["尝试放松技巧和压力管理"] }
    {} none []).1 (by decide) (by decide)

/-- C4 counterexample: when the mental assessor raises, the per-agent entry
built by the coordinator is exactly the dictionary holding only the failure
description — it has no `risk_assessment` and hence no `risk_level = "low"`
field, contrary to the claim. -/
theorem error_entry_has_no_risk_level :
    (process_message_model true (.ok []) (.error "boom") (.ok {}) (.ok {})
        {} "u1" "hello" "s1").mental_entry.risk_assessment = none ∧
    (process_message_model true (.ok []) (.error "boom") (.ok {}) (.ok {})
        {} "u1" "hello" "s1").mental_entry.error = some "boom" := by
  constructor <;> rfl

/-- C4 amended: an exception raised by an assessor is caught at the gather
boundary and converted into that assessor's entry holding only the failure
description (no `risk_level` field); the synthesis step receives the empty
dictionary for the failed assessor, whose effective risk level is therefore
absent (never promoted above low), and the coordinator still computes the
complete verdict from the substituted inputs. -/
theorem assessor_failure_isolated (msg : String) (memInit : Bool)
    (retrS : Except String (List Session))
    (mo : Except String MentalResult) (po : Except String PhysicalResult)
    (eo : Except String EconomicsResult) (storeOps : MemoryOps)
    (uid message nid : String) :
    (process_message_model memInit retrS (.error msg) po eo storeOps uid message nid).mental_entry
      = { risk_assessment := none, recommendations := [], error := some msg } ∧
    (process_message_model memInit retrS mo (.error msg) eo storeOps uid message nid).physical_entry
      = { injury_risk := none, recommendations := [], error := some msg } ∧
    (process_message_model memInit retrS mo po (.error msg) storeOps uid message nid).economics_entry
      = { economic_assessment := false, barriers := [], recommendations := []
          healthcare_accessibility := none, error := some msg } ∧
    mentalRiskLevel (mentalSynthInput (.error msg)) = none ∧
    physRiskLevel (physicalSynthInput (.error msg)) = none ∧
    econSynthInput (Except.error msg) = none ∧
    (process_message_model memInit retrS mo po eo storeOps uid message nid).synthesis
      = synthesize_results (mentalSynthInput mo) (physicalSynthInput po) (econSynthInput eo)
          (retrieve_relevant_memories memInit retrS message 5) := by
  exact ⟨rfl, rfl, rfl, rfl, rfl, rfl, rfl⟩

/-- C5 counterexample: the entry handed to the synthesis step for a failed
assessor is the empty dictionary — its `error` field is `none`, so the claim
that synthesis receives an entry carrying the error marker is false (the
error marker lives only in the per-agent response section). -/
theorem synth_input_lacks_error_marker :
    (mentalSynthInput (Except.error "boom")).error = none ∧
    mentalSynthInput (Except.error "boom") = ({} : MentalResult) ∧
    (physicalSynthInput (Except.error "boom")).error = none ∧
    econSynthInput (Except.error "boom") = none := by
  exact ⟨rfl, rfl, rfl, rfl⟩

/-- C5 amended: the synthesis step always receives exactly one entry per
configured assessor — a successful assessor's own result, and the empty
result for a failed assessor (never omitted, but carrying no error marker);
the error marker is recorded in the per-agent section of the coordinator's
response instead. -/
theorem synthesis_receives_all_assessors (msg : String) (memInit : Bool)
    (retrS : Except String (List Session))
    (mo : Except String MentalResult) (po : Except String PhysicalResult)
    (eo : Except String EconomicsResult) (storeOps : MemoryOps)
    (uid message nid : String)
    (m : MentalResult) (p : PhysicalResult) (er : EconomicsResult) :
    (process_message_model memInit retrS mo po eo storeOps uid message nid).synthesis
      = synthesize_results (mentalSynthInput mo) (physicalSynthInput po) (econSynthInput eo)
          (retrieve_relevant_memories memInit retrS message 5) ∧
    mentalSynthInput (.ok m) = m ∧
    physicalSynthInput (.ok p) = p ∧
    econSynthInput (.ok er) = some er ∧
    mentalSynthInput (.error msg) = ({} : MentalResult) ∧
    physicalSynthInput (.error msg) = ({} : PhysicalResult) ∧
    econSynthInput (Except.error msg) = none ∧
    mentalEntry (.error msg) = { error := some msg } ∧
    physicalEntry (.error msg) = { error := some msg } ∧
    economicsEntry (.error msg) = { error := some msg } := by
  exact ⟨rfl, rfl, rfl, rfl, rfl, rfl, rfl, rfl, rfl, rfl⟩

/-- The economics block emits the low-accessibility warning. -/
def econAccWarningB (e : Option EconomicsResult) : Bool :=
  match e with
  | none => false
  | some er => er.economic_assessment && accLowB er

/-- C6 counterexample: with no high/medium risk anywhere and an *empty*
economic barriers list, an accessibility `overall_score` of 0.4 still puts
the low-accessibility warning into `warnings`, so the warnings list is not
empty as the claim states (the status is nevertheless `"good"`). -/
theorem empty_barriers_warning_counterexample :
    (synthesize_results {} {}
        (some { economic_assessment := true
                barriers := []
                healthcare_accessibility := some { overall_score := some (mkRat 2 5) } })
        []).overall_health_status = "good" ∧
    (synthesize_results {} {}
        (some { economic_assessment := true
                barriers := []
                healthcare_accessibility := some { overall_score := some (mkRat 2 5) } })
        []).warnings = ["⚠️ 医疗可及性较低，可能影响获得医疗服务"] := by
  constructor <;> decide

/-- C6 amended: if no result reports high or medium risk, the economic
barriers list is empty, *and* the economics accessibility score does not
trigger the low-accessibility warning (score defaulting to 0.5 is not below
0.5), then the verdict has status `"good"` and an empty warnings list. -/
theorem quiet_merge_good_no_warnings (m : MentalResult) (p : PhysicalResult)
    (e : Option EconomicsResult) (memories : List MemoryHit)
    (h1 : mentalRiskLevel m ≠ some "high") (h2 : mentalRiskLevel m ≠ some "medium")
    (h3 : physRiskLevel p ≠ some "high") (h4 : physRiskLevel p ≠ some "medium")
    (h5 : econBarriers e = []) (h6 : econAccWarningB e = false) :
    (synthesize_results m p e memories).overall_health_status = "good" ∧
    (synthesize_results m p e memories).warnings = [] := by
  have hmh : mentalHighB m = false := by
    simp only [mentalHighB, beq_eq_false_iff_ne, ne_eq]; exact h1
  have hmm : mentalMediumB m = false := by
    simp only [mentalMediumB, beq_eq_false_iff_ne, ne_eq]; exact h2
  have hph : physHighB p = false := by
    simp only [physHighB, beq_eq_false_iff_ne, ne_eq]; exact h3
  have hew : econWarnings e = [] := by
    cases e with
    | none => rfl
    | some er =>
      simp only [econBarriers] at h5
      simp only [econAccWarningB, Bool.and_eq_false_iff] at h6
      simp only [econWarnings, h5]
      rcases h6 with h6 | h6
      · simp [h6]
      · simp [h6]
  rw [synthesize_results_char]
  constructor
  · simp [finalStatus, hmh, hmm, hph]
  · simp [hmh, hph, hew]

/-- Witness for the amended C6: all assessors quiet, economics present with
empty barriers and accessibility score 0.8. -/
theorem quiet_merge_good_no_warnings_witness :
    (synthesize_results { risk_assessment := some { risk_level := some "low" } }
        { injury_risk := some { risk_level := some "low" } }
        (some { economic_assessment := true
                barriers := []
                healthcare_accessibility := some { overall_score := some (mkRat 4 5) } })
        []).overall_health_status = "good" ∧
    (synthesize_results { risk_assessment := some { risk_level := some "low" } }
        { injury_risk := some { risk_level := some "low" } }
        (some { economic_assessment := true
                barriers := []
                healthcare_accessibility := some { overall_score := some (mkRat 4 5) } })
        []).warnings = [] :=
  quiet_merge_good_no_warnings
    { risk_assessment := some { risk_level := some "low" } }
    { injury_risk := some { risk_level := some "low" } }
    (some { economic_assessment := true
            barriers := []
            healthcare_accessibility := some { overall_score := some (mkRat 4 5) } })
    [] (by decide) (by decide) (by decide) (by decide) (by decide) (by decide)

/-- C7: the economics step never changes `overall_health_status` or
`priority`; when the economics dictionary carries the `economic_assessment`
key it contributes exactly: one barrier warning when `barriers` is non-empty,
the first two barriers as insights, its recommendations each marked with the
economic prefix, the low-accessibility warning when the score is below 0.5,
and the good-accessibility insight when the score is above 0.7. -/
theorem econ_frame_and_contributions (e : Option EconomicsResult) (s : Synthesis) :
    ((stepEconomic e s).overall_health_status = s.overall_health_status ∧
     (stepEconomic e s).priority = s.priority) ∧
    (∀ er : EconomicsResult, er.economic_assessment = true →
      (stepEconomic (some er) s).warnings = s.warnings ++
        (if er.barriers ≠ [] then ["💰 检测到经济障碍可能影响健康"] else []) ++
        (if accLowB er then ["⚠️ 医疗可及性较低，可能影响获得医疗服务"] else []) ∧
      (stepEconomic (some er) s).insights = s.insights ++ er.barriers.take 2 ++
        (if accHighB er then ["✅ 医疗可及性良好，可以充分利用医疗资源"] else []) ∧
      (stepEconomic (some er) s).recommendations =
        s.recommendations ++ er.recommendations.map markEconRec) := by
  constructor
  · rw [stepEconomic_char]
    exact ⟨rfl, rfl⟩
  · intro er hg
    rw [stepEconomic_char]
    refine ⟨?_, ?_, ?_⟩ <;> simp [econWarnings, econInsights, econRecs, hg]

/-- Witness for C7: a concrete economics result with one barrier, one
recommendation and a low accessibility score. -/
theorem econ_frame_and_contributions_witness :
    (stepEconomic (some { economic_assessment := true
                          barriers := ["低收入可能限制医疗选择"]
                          recommendations := ["优先使用公共医疗"]
                          healthcare_accessibility := some { overall_score := some (mkRat 2 5) } })
        synthesisInit).warnings = synthesisInit.warnings ++
      (if (["低收入可能限制医疗选择"] : List String) ≠ [] then ["💰 检测到经济障碍可能影响健康"] else []) ++
      (if accLowB { economic_assessment := true
                    barriers := ["低收入可能限制医疗选择"]
                    recommendations := ["优先使用公共医疗"]
                    healthcare_accessibility := some { overall_score := some (mkRat 2 5) } }
        then ["⚠️ 医疗可及性较低，可能影响获得医疗服务"] else []) ∧
    (stepEconomic (some { economic_assessment := true
                          barriers := ["低收入可能限制医疗选择"]
                          recommendations := ["优先使用公共医疗"]
                          healthcare_accessibility := some { overall_score := some (mkRat 2 5) } })
        synthesisInit).insights = synthesisInit.insights ++
      (["低收入可能限制医疗选择"] : List String).take 2 ++
      (if accHighB { economic_assessment := true
                     barriers := ["低收入可能限制医疗选择"]
                     recommendations := ["优先使用公共医疗"]
                     healthcare_accessibility := some { overall_score := some (mkRat 2 5) } }
        then ["✅ 医疗可及性良好，可以充分利用医疗资源"] else []) ∧
    (stepEconomic (some { economic_assessment := true
                          barriers := ["低收入可能限制医疗选择"]
                          recommendations := ["优先使用公共医疗"]
                          healthcare_accessibility := some { overall_score := some (mkRat 2 5) } })
        synthesisInit).recommendations = synthesisInit.recommendations ++
      (["优先使用公共医疗"] : List String).map markEconRec :=
  (econ_frame_and_contributions
    (some { economic_assessment := true
            barriers := ["低收入可能限制医疗选择"]
            recommendations := ["优先使用公共医疗"]
            healthcare_accessibility := some { overall_score := some (mkRat 2 5) } })
    synthesisInit).2
    { economic_assessment := true
      barriers := ["低收入可能限制医疗选择"]
      recommendations := ["优先使用公共医疗"]
      healthcare_accessibility := some { overall_score := some (mkRat 2 5) } } rfl

/-- C8 counterexample: a mental-medium result whose recommendations list
repeats one string yields a verdict whose `recommendations` list contains a
duplicate — the merge does not deduplicate. -/
theorem verdict_lists_not_deduplicated :
    (synthesize_results
        { risk_assessment := some { risk_level := some "medium" }
          recommendations := ["建议关注心理健康", "建议关注心理健康"] }
        {} none []).recommendations =
      ["建议关注心理健康", "建议关注心理健康", "💛 建议关注身心健康，适当调整生活方式"] ∧
    ¬ (synthesize_results
        { risk_assessment := some { risk_level := some "medium" }
          recommendations := ["建议关注心理健康", "建议关注心理健康"] }
        {} none []).recommendations.Nodup := by
  constructor <;> decide

/-- C8 amended: the verdict's `recommendations`, `warnings` and `insights`
lists are the plain concatenations of the per-assessor contributions in
evaluation order (mental, physical, economic, memory, closing); duplicates
are preserved, nothing is deduplicated. -/
theorem verdict_lists_are_concatenations (m : MentalResult) (p : PhysicalResult)
    (e : Option EconomicsResult) (memories : List MemoryHit) :
    (synthesize_results m p e memories).recommendations =
      mentalRecsContrib m ++ physRecsContrib p ++ econRecs e ++
        [closingRec (finalStatus m p)] ∧
    (synthesize_results m p e memories).warnings =
      (if mentalHighB m then ["⚠️ 检测到心理健康高风险，建议立即寻求专业帮助"] else []) ++
      (if physHighB p then ["⚠️ 运动损伤风险较高"] else []) ++ econWarnings e ∧
    (synthesize_results m p e memories).insights =
      econInsights e ++ memoryInsights memories := by
  rw [synthesize_results_char]
  exact ⟨rfl, rfl, rfl⟩

/-- C9: memory retrieval degrades to `[]` when uninitialized or when the
session lookup raises, returns at most `top_k` hits, and is total; storage
degrades to `none` when uninitialized or when any memory-system call raises;
and the coordinator still returns the verdict (synthesis unchanged,
`memory_id = none`) when storage fails. -/
theorem memory_gateway_fail_safe :
    (∀ (sres : Except String (List Session)) (q : String) (k : Nat),
      retrieve_relevant_memories false sres q k = []) ∧
    (∀ (init : Bool) (msg q : String) (k : Nat),
      retrieve_relevant_memories init (.error msg) q k = []) ∧
    (∀ (init : Bool) (sres : Except String (List Session)) (q : String) (k : Nat),
      (retrieve_relevant_memories init sres q k).length ≤ k) ∧
    (∀ (ops : MemoryOps) (uid nid : String),
      store_experience false ops uid nid = none) ∧
    (∀ (msg : String) (sres : Except String (List Session))
        (save : Except String Unit) (uid nid : String),
      store_experience true { profileResult := .error msg, sessionsResult := sres
                              saveResult := save } uid nid = none) ∧
    (∀ (prof : Except String Unit) (msg : String) (save : Except String Unit)
        (uid nid : String),
      store_experience true { profileResult := prof, sessionsResult := .error msg
                              saveResult := save } uid nid = none) ∧
    (∀ (prof : Except String Unit) (sres : Except String (List Session))
        (msg : String) (uid nid : String),
      store_experience true { profileResult := prof, sessionsResult := sres
                              saveResult := .error msg } uid nid = none) ∧
    (∀ (memInit : Bool) (retrS : Except String (List Session))
        (mo : Except String MentalResult) (po : Except String PhysicalResult)
        (eo : Except String EconomicsResult) (prof : Except String Unit)
        (sres : Except String (List Session)) (msg uid message nid : String),
      (process_message_model memInit retrS mo po eo
          { profileResult := prof, sessionsResult := sres, saveResult := .error msg }
          uid message nid).memory_id = none ∧
      (process_message_model memInit retrS mo po eo
          { profileResult := prof, sessionsResult := sres, saveResult := .error msg }
          uid message nid).synthesis =
        synthesize_results (mentalSynthInput mo) (physicalSynthInput po) (econSynthInput eo)
          (retrieve_relevant_memories memInit retrS message 5)) := by
  refine ⟨?_, ?_, ?_, ?_, ?_, ?_, ?_, ?_⟩
  · intro sres q k; rfl
  · intro init msg q k
    cases init <;> rfl
  · intro init sres q k
    cases init with
    | false => simp [retrieve_relevant_memories]
    | true =>
      cases sres with
      | error msg => simp [retrieve_relevant_memories]
      | ok sessions =>
        simp only [retrieve_relevant_memories, Bool.not_true, Bool.false_eq_true,
          if_false, ite_false]
        exact List.length_take_le k _
  · intro ops uid nid; rfl
  · intro msg sres save uid nid; rfl
  · intro prof msg save uid nid
    cases prof <;> rfl
  · intro prof sres msg uid nid
    cases prof with
    | error e => rfl
    | ok u =>
      cases sres with
      | error e => rfl
      | ok sessions => cases sessions <;> rfl
  · intro memInit retrS mo po eo prof sres msg uid message nid
    constructor
    · show store_experience memInit
        { profileResult := prof, sessionsResult := sres, saveResult := .error msg } uid nid = none
      cases memInit with
      | false => rfl
      | true =>
        cases prof with
        | error e => rfl
        | ok u =>
          cases sres with
          | error e => rfl
          | ok sessions => cases sessions <;> rfl
    · rfl

/-- C10: when the mental result reports high risk, its own recommendations
are not appended to the verdict — the recommendations list consists of the
physical and economic contributions plus the critical closing
recommendation; and for any merge where the mental risk level is not
`"medium"`, no mental recommendations appear at all. -/
theorem mental_high_recs_suppressed (m : MentalResult) (p : PhysicalResult)
    (e : Option EconomicsResult) (memories : List MemoryHit)
    (h : mentalRiskLevel m = some "high") :
    (synthesize_results m p e memories).recommendations =
      physRecsContrib p ++ econRecs e ++ ["🔴 建议尽快咨询专业医疗人员"] ∧
    (∀ m' : MentalResult, mentalRiskLevel m' ≠ some "medium" →
      (synthesize_results m' p e memories).recommendations =
        physRecsContrib p ++ econRecs e ++ [closingRec (finalStatus m' p)]) := by
  constructor
  · have hmm : mentalMediumB m = false := by simp [mentalMediumB, h]
    have hmh : mentalHighB m = true := by simp [mentalHighB, h]
    rw [synthesize_results_char]
    simp [mentalRecsContrib, hmm, finalStatus, hmh, closingRec]
  · intro m' h'
    have hmm : mentalMediumB m' = false := by
      simp only [mentalMediumB, beq_eq_false_iff_ne, ne_eq]; exact h'
    rw [synthesize_results_char]
    simp [mentalRecsContrib, hmm]

/-- Witness for C10: a concrete mental-high result with its own non-empty
recommendations list, which does not reach the verdict. -/
theorem mental_high_recs_suppressed_witness :
    (synthesize_results
        { risk_assessment := some { risk_level := some "high" }
          recommendations := ["建议立即寻求专业心理健康帮助"] }
        {} none []).recommendations =
      physRecsContrib {} ++ econRecs none ++ ["🔴 建议尽快咨询专业医疗人员"] :=
  (mental_high_recs_suppressed
    { risk_assessment := some { risk_level := some "high" }
      recommendations := ["建议立即寻求专业心理健康帮助"] }
    {} none [] (by decide)).1
